import Mathlib

/-!
# Verification of the chat session lifecycle backend

Shallow embedding of the session/streaming core of the repository
(`services/chat/SessionManager.js`, `services/chat/SuggestionGenerator.js`,
`services/chat/index.js`).

Modelling conventions:
* Timestamps (`Date.now()`) are `Nat` milliseconds, passed explicitly.
* Session ids (uuidv4, assumed unique) are modelled by a fresh counter
  `nextSession`; timer handles (`setTimeout` return values) by a fresh
  counter `nextTimer`.
* The live (armed, not yet fired or cancelled) timers of the runtime are an
  explicit list of `(timerId, sessionId)` pairs; `setTimeout` conses a fresh
  pair, `clearTimeout t` removes the pair(s) with timer id `t`.
* The `sessions` JS `Map` is an association list; `Map.set` of a fresh key
  is cons, in-place mutation of a session object is a keyed map update.
* Remote calls (OpenAI threads API, suggestion model) are injected as
  explicit outcome parameters.
-/

namespace PhilMoore

/-- Session status: the JS code uses the strings `'active'` and
`'pending_deletion'`. -/
inductive Status where
  | active
  | pending_deletion
deriving DecidableEq, Repr

/-- A session record, as built in `SessionManager.createSession`:
`{ threadId, lastActive, timeoutId, status }`. -/
structure Session where
  threadId : Option Nat
  lastActive : Nat
  timeoutId : Option Nat
  status : Status
deriving DecidableEq, Repr

/-- `SESSION_TIMEOUT = 30 * 60 * 1000` (30 minutes, in milliseconds). -/
def SESSION_TIMEOUT : Nat := 30 * 60 * 1000

/-- The state owned by a `SessionManager` instance, together with the part
of the JS runtime it interacts with (armed timers, fresh-id supplies). -/
structure SMState where
  sessions : List (Nat × Session)
  live : List (Nat × Nat)
  nextTimer : Nat
  nextSession : Nat
deriving DecidableEq, Repr

/-- The state of a freshly constructed `SessionManager` (empty `Map`, no
armed timers). -/
def initState : SMState := ⟨[], [], 0, 0⟩

/-- First-match lookup in the association list (`Map.get`). -/
def lookupSess (sid : Nat) : List (Nat × Session) → Option Session
  | [] => none
  | (k, v) :: rest => if k = sid then some v else lookupSess sid rest

/-- In-place mutation of the session object stored under `sid`
(JS mutates the object returned by `Map.get`). -/
def updateSess (sid : Nat) (f : Session → Session) :
    List (Nat × Session) → List (Nat × Session)
  | [] => []
  | (k, v) :: rest =>
    if k = sid then (k, f v) :: updateSess sid f rest
    else (k, v) :: updateSess sid f rest

/-- `SessionManager.getSession`: `this.sessions.get(sessionId)`. -/
def getSession (s : SMState) (sid : Nat) : Option Session :=
  lookupSess sid s.sessions

/-- `SessionManager.hasSession`: the session exists and its status is
`'active'`. -/
def hasSession (s : SMState) (sid : Nat) : Bool :=
  match getSession s sid with
  | some sess => sess.status == Status.active
  | none => false

/-- `SessionManager.createSession`: inserts
`{ threadId: null, lastActive: Date.now(), timeoutId: null, status: 'active' }`
under a fresh id and returns the id. -/
def createSession (now : Nat) (s : SMState) : Nat × SMState :=
  let sid := s.nextSession
  let sess : Session :=
    { threadId := none, lastActive := now, timeoutId := none
      status := Status.active }
  (sid, { s with sessions := (sid, sess) :: s.sessions
                 nextSession := s.nextSession + 1 })

/-- `clearTimeout(t)`: disarm the timer with handle `t`. -/
def clearTimer (t : Nat) (live : List (Nat × Nat)) : List (Nat × Nat) :=
  live.filter (fun p => p.1 != t)

/-- `SessionManager.scheduleCleanup`: no-op unless the session exists and is
active; clears any existing timeout, then arms a fresh `SESSION_TIMEOUT`
timer and stores its handle in `session.timeoutId`. -/
def scheduleCleanup (sid : Nat) (s : SMState) : SMState :=
  match getSession s sid with
  | none => s
  | some sess =>
    if sess.status ≠ Status.active then s
    else
      let live1 := match sess.timeoutId with
        | some t => clearTimer t s.live
        | none => s.live
      let tid := s.nextTimer
      { s with
        sessions := updateSess sid (fun ss => { ss with timeoutId := some tid }) s.sessions
        live := (tid, sid) :: live1
        nextTimer := s.nextTimer + 1 }

/-- `SessionManager.refreshSession`: returns `null` (here `none`) and leaves
the state untouched unless the session exists and is active; otherwise sets
`lastActive := now`, clears any existing timeout (also nulling `timeoutId`),
calls `scheduleCleanup`, and returns the (mutated) session object. -/
def refreshSession (now sid : Nat) (s : SMState) : Option Session × SMState :=
  match getSession s sid with
  | none => (none, s)
  | some sess =>
    if sess.status ≠ Status.active then (none, s)
    else
      let live1 := match sess.timeoutId with
        | some t => clearTimer t s.live
        | none => s.live
      let s1 := { s with
        sessions := updateSess sid
          (fun ss => { ss with lastActive := now, timeoutId := none }) s.sessions
        live := live1 }
      let s2 := scheduleCleanup sid s1
      (getSession s2 sid, s2)

/-- `SessionManager.markSessionForDeletion`: returns `false` iff the session
does not exist; otherwise sets `status := 'pending_deletion'` and returns
`true`. Note that it does not inspect the current status and does not touch
the timer. -/
def markSessionForDeletion (sid : Nat) (s : SMState) : Bool × SMState :=
  match getSession s sid with
  | none => (false, s)
  | some _ =>
    (true, { s with
      sessions := updateSess sid
        (fun ss => { ss with status := Status.pending_deletion }) s.sessions })

/-- `SessionManager.deleteSession`: clears the session's timeout (if the
session exists and has one) and removes the map entry. -/
def deleteSession (sid : Nat) (s : SMState) : SMState :=
  let live1 := match getSession s sid with
    | some sess =>
      match sess.timeoutId with
      | some t => clearTimer t s.live
      | none => s.live
    | none => s.live
  { s with live := live1
           sessions := s.sessions.filter (fun p => p.1 != sid) }

/-- The expiry test of `SessionManager.getExpiredSessions`:
`status === 'pending_deletion' || (now - lastActive > SESSION_TIMEOUT && status === 'active')`. -/
def expiredPred (now : Nat) (sess : Session) : Bool :=
  sess.status == Status.pending_deletion ||
    (decide (now - sess.lastActive > SESSION_TIMEOUT) && sess.status == Status.active)

/-- `SessionManager.getExpiredSessions`: ids of the entries satisfying
`expiredPred`, in map order. -/
def getExpiredSessions (now : Nat) (s : SMState) : List Nat :=
  (s.sessions.filter (fun p => expiredPred now p.2)).map Prod.fst

/-! ## ChatService (`services/chat/index.js`) -/

/-- A socket/broadcast event emitted by `ChatService`. The `info` flag of
`session_created` records whether the payload carried the
`info: "Previous session expired"` field. -/
inductive Emit where
  | session_created (sid : Nat) (info : Bool)
  | session_resumed (sid : Nat)
  | textCreated
  | textDelta (v : String)
  | errorMsg (msg : String)
  | responseComplete
  | suggestions (l : List String)
  | clear_chat (sid : Nat)
deriving DecidableEq, Repr

/-- Outcome of the OpenAI chat-completions call made by
`SuggestionGenerator.generate`, as seen by its `try` block: `ok l` means the
call succeeded and the JSON parse produced `quick_replies = l`; `fail` means
anything in the `try` block threw. -/
inductive SuggestApi where
  | ok (quick_replies : List String)
  | fail
deriving DecidableEq, Repr

/-- `SuggestionGenerator.generate`: returns the parsed `quick_replies` on
success and `[]` on any error (the `catch` branch logs and returns `[]`;
the function itself never throws). -/
def generate (api : SuggestApi) : List String :=
  match api with
  | SuggestApi.ok l => l
  | SuggestApi.fail => []

/-- A non-terminal event of the reply stream in `ChatService.handlePrompt`. -/
inductive StreamEvent where
  | textCreated
  | textDelta (v : String)
deriving DecidableEq, Repr

/-- The terminal event of the reply stream: a normal `end` or an `error`. -/
inductive StreamOutcome where
  | endOk
  | errorEvt
deriving DecidableEq, Repr

/-- The socket emission of each non-terminal stream handler. -/
def emitOfStreamEvent : StreamEvent → Emit
  | StreamEvent.textCreated => Emit.textCreated
  | StreamEvent.textDelta v => Emit.textDelta v

/-- `fullResponse`: the concatenation of the delta fragments accumulated by
the `textDelta` handler. -/
def fullResponseOf (evs : List StreamEvent) : String :=
  evs.foldl (fun acc e =>
    match e with
    | StreamEvent.textDelta v => acc ++ v
    | StreamEvent.textCreated => acc) ""

/-- The stream phase of `ChatService.handlePrompt` for session `sid`: the
non-terminal handlers forward each event; the `error` handler emits one
error message and nothing else; the `end` handler emits `responseComplete`,
then the suggestions event with `generate`'s result (which never throws, so
the surrounding `catch` is not taken), then calls `scheduleCleanup`. -/
def runStream (sid : Nat) (evs : List StreamEvent) (outcome : StreamOutcome)
    (api : SuggestApi) (s : SMState) : List Emit × SMState :=
  let forwarded := evs.map emitOfStreamEvent
  match outcome with
  | StreamOutcome.errorEvt =>
    (forwarded ++ [Emit.errorMsg "Error during response streaming"], s)
  | StreamOutcome.endOk =>
    let sugg := generate api
    (forwarded ++ [Emit.responseComplete, Emit.suggestions sugg],
      scheduleCleanup sid s)

/-- Outcomes of the remote calls made during one `handlePrompt` turn:
whether `retrieveAssistant` succeeds, the created thread id (or `none` if
`threads.create` throws), whether `messages.create` succeeds, whether
starting the run stream succeeds, the stream's events and terminal outcome,
and the suggestion-call outcome. -/
structure PromptApi where
  retrieveAssistantOk : Bool
  createThread : Option Nat
  appendMessageOk : Bool
  streamStartOk : Bool
  streamEvents : List StreamEvent
  streamOutcome : StreamOutcome
  suggestApi : SuggestApi
deriving DecidableEq, Repr

/-- `ChatService.handlePrompt`: rejects missing or non-active sessions,
then retrieves the assistant, lazily creates and stores the thread id,
appends the user message, and runs the reply stream; each remote failure
emits the corresponding error message and aborts the turn. -/
def handlePrompt (api : PromptApi) (sid : Nat) (s : SMState) :
    List Emit × SMState :=
  match getSession s sid with
  | none => ([Emit.errorMsg "Session is no longer active"], s)
  | some sess =>
    if sess.status ≠ Status.active then
      ([Emit.errorMsg "Session is no longer active"], s)
    else if !api.retrieveAssistantOk then
      ([Emit.errorMsg "Could not retrieve assistant"], s)
    else
      match
        (match sess.threadId with
         | some _ => some s
         | none =>
           match api.createThread with
           | none => none
           | some t =>
             let sessions1 :=
               updateSess sid (fun ss => { ss with threadId := some t }) s.sessions
             some { s with sessions := sessions1 })
      with
      | none => ([Emit.errorMsg "Could not create conversation thread"], s)
      | some s1 =>
        if !api.appendMessageOk then
          ([Emit.errorMsg "Could not add your message"], s1)
        else if !api.streamStartOk then
          ([Emit.errorMsg "Could not generate response"], s1)
        else
          runStream sid api.streamEvents api.streamOutcome api.suggestApi s1

/-- The `resume_session` handler: if the payload carries a session id that
`hasSession` accepts, refresh it and emit `session_resumed`; if the refresh
nevertheless fails, create a fresh session and emit `session_created` with
the info field; otherwise (no id, unknown id, or non-active session) create
a fresh session and emit `session_created` without the info field. -/
def resumeSession (now : Nat) (dataSessionId : Option Nat) (s : SMState) :
    List Emit × SMState :=
  match dataSessionId with
  | some id =>
    if hasSession s id then
      match refreshSession now id s with
      | (some _, s1) => ([Emit.session_resumed id], s1)
      | (none, s1) =>
        let (nsid, s2) := createSession now s1
        ([Emit.session_created nsid true], s2)
    else
      let (nsid, s1) := createSession now s
      ([Emit.session_created nsid false], s1)
  | none =>
    let (nsid, s1) := createSession now s
    ([Emit.session_created nsid false], s1)

/-- Outcome of the remote `openai.beta.threads.del` call in
`ChatService.cleanupSession`: success, a thrown error with `status === 404`,
or any other thrown error. -/
inductive DelResult where
  | success
  | notFound
  | otherError
deriving DecidableEq, Repr

/-- `ChatService.cleanupSession`: no-op if the session is gone; otherwise
mark it for deletion (backing off if that returns `false`); then, if a
thread is bound, attempt the remote delete — on success broadcast
`clear_chat` and delete the session, on a 404 delete the session silently,
on any other error keep the marked record for the next sweep; with no bound
thread, just delete the session. -/
def cleanupSession (del : DelResult) (sid : Nat) (s : SMState) :
    List Emit × SMState :=
  match getSession s sid with
  | none => ([], s)
  | some sess =>
    match markSessionForDeletion sid s with
    | (false, s1) => ([], s1)
    | (true, s1) =>
      match sess.threadId with
      | some _ =>
        match del with
        | DelResult.success => ([Emit.clear_chat sid], deleteSession sid s1)
        | DelResult.notFound => ([], deleteSession sid s1)
        | DelResult.otherError => ([], s1)
      | none => ([], deleteSession sid s1)

/-! ## Operation traces over the registry -/

/-- One registry operation, for reasoning about all call sequences of
`createSession` / `refreshSession` / `markSessionForDeletion` /
`deleteSession` / `scheduleCleanup`. -/
inductive Op where
  | create (now : Nat)
  | refresh (now sid : Nat)
  | mark (sid : Nat)
  | remove (sid : Nat)
  | schedule (sid : Nat)
deriving DecidableEq, Repr

/-- Apply one registry operation to a state. -/
def applyOp (s : SMState) : Op → SMState
  | Op.create now => (createSession now s).2
  | Op.refresh now sid => (refreshSession now sid s).2
  | Op.mark sid => (markSessionForDeletion sid s).2
  | Op.remove sid => deleteSession sid s
  | Op.schedule sid => scheduleCleanup sid s

/-- Run a sequence of registry operations from the initial state. -/
def runOps (ops : List Op) : SMState := ops.foldl applyOp initState

/-- The timers currently armed for session `sid`. -/
def liveTimersFor (sid : Nat) (s : SMState) : List (Nat × Nat) :=
  s.live.filter (fun p => p.2 == sid)

/-- Well-formedness of a registry state: the armed timers are exactly the
`timeoutId` handles stored in the sessions, timer handles are unique and
below the fresh-handle counter, and session ids are below the fresh-id
counter. -/
structure Inv (s : SMState) : Prop where
  live_match : ∀ tid sid, (tid, sid) ∈ s.live ↔
    ∃ sess, getSession s sid = some sess ∧ sess.timeoutId = some tid
  live_nodup : (s.live.map Prod.fst).Nodup
  timer_fresh : ∀ p ∈ s.live, p.1 < s.nextTimer
  sess_fresh : ∀ p ∈ s.sessions, p.1 < s.nextSession

/-! ## Event discriminators -/

/-- Is this emission an `error` event? -/
def isErrorEmit : Emit → Bool
  | Emit.errorMsg _ => true
  | _ => false

/-- Is this emission a `suggestions` event? -/
def isSuggestionsEmit : Emit → Bool
  | Emit.suggestions _ => true
  | _ => false

/-- Is this emission a `responseComplete` event? -/
def isCompleteEmit : Emit → Bool
  | Emit.responseComplete => true
  | _ => false

/-- Is this emission a `clear_chat` broadcast? -/
def isClearChatEmit : Emit → Bool
  | Emit.clear_chat _ => true
  | _ => false

/-! ## Helper lemmas on the association list and the timer list -/

theorem lookupSess_update_self (sid : Nat) (f : Session → Session)
    (l : List (Nat × Session)) :
    lookupSess sid (updateSess sid f l) = (lookupSess sid l).map f := by
  induction l with
  | nil => rfl
  | cons p rest ih =>
    obtain ⟨k, v⟩ := p
    by_cases hk : k = sid
    · subst hk
      simp [lookupSess, updateSess]
    · simp [lookupSess, updateSess, hk, ih]

theorem lookupSess_update_ne (sid sid' : Nat) (hne : sid' ≠ sid)
    (f : Session → Session) (l : List (Nat × Session)) :
    lookupSess sid' (updateSess sid f l) = lookupSess sid' l := by
  induction l with
  | nil => rfl
  | cons p rest ih =>
    obtain ⟨k, v⟩ := p
    by_cases hk : k = sid
    · subst hk
      simp [lookupSess, updateSess, Ne.symm hne, ih]
    · by_cases hk' : k = sid'
      · subst hk'
        simp [lookupSess, updateSess, hk]
      · simp [lookupSess, updateSess, hk, hk', ih]

theorem lookupSess_filter_self (sid : Nat) (l : List (Nat × Session)) :
    lookupSess sid (l.filter (fun p => p.1 != sid)) = none := by
  induction l with
  | nil => rfl
  | cons p rest ih =>
    obtain ⟨k, v⟩ := p
    by_cases hk : k = sid
    · subst hk
      simp [List.filter_cons, ih]
    · simp [List.filter_cons, bne_iff_ne, hk, lookupSess, ih]

theorem lookupSess_filter_ne (sid sid' : Nat) (hne : sid' ≠ sid)
    (l : List (Nat × Session)) :
    lookupSess sid' (l.filter (fun p => p.1 != sid)) = lookupSess sid' l := by
  induction l with
  | nil => rfl
  | cons p rest ih =>
    obtain ⟨k, v⟩ := p
    by_cases hk : k = sid
    · subst hk
      simp [List.filter_cons, lookupSess, Ne.symm hne, ih]
    · by_cases hk' : k = sid'
      · subst hk'
        simp [List.filter_cons, bne_iff_ne, hk, lookupSess]
      · simp [List.filter_cons, bne_iff_ne, hk, hk', lookupSess, ih]

theorem lookupSess_fresh (n : Nat) (l : List (Nat × Session))
    (h : ∀ p ∈ l, p.1 < n) : lookupSess n l = none := by
  induction l with
  | nil => rfl
  | cons p rest ih =>
    obtain ⟨k, v⟩ := p
    have hk : k < n := h (k, v) (List.mem_cons_self _ _)
    have : k ≠ n := Nat.ne_of_lt hk
    simp [lookupSess, this]
    exact ih (fun q hq => h q (List.mem_cons_of_mem _ hq))

theorem updateSess_keys (sid : Nat) (f : Session → Session)
    (l : List (Nat × Session)) :
    (updateSess sid f l).map Prod.fst = l.map Prod.fst := by
  induction l with
  | nil => rfl
  | cons p rest ih =>
    obtain ⟨k, v⟩ := p
    by_cases hk : k = sid <;> simp [updateSess, hk, ih]

theorem mem_clearTimer {t : Nat} {live : List (Nat × Nat)} {q : Nat × Nat} :
    q ∈ clearTimer t live ↔ q ∈ live ∧ q.1 ≠ t := by
  simp [clearTimer, List.mem_filter, bne_iff_ne]

theorem mem_fst_inj {l : List (Nat × Nat)} (h : (l.map Prod.fst).Nodup)
    {a b c : Nat} (h1 : (a, b) ∈ l) (h2 : (a, c) ∈ l) : b = c := by
  induction l with
  | nil => cases h1
  | cons p rest ih =>
    obtain ⟨k, v⟩ := p
    simp only [List.map_cons, List.nodup_cons] at h
    rcases List.mem_cons.mp h1 with h1h | h1t
    · rcases List.mem_cons.mp h2 with h2h | h2t
      · rw [Prod.mk.injEq] at h1h h2h
        omega
      · exfalso
        rw [Prod.mk.injEq] at h1h
        refine h.1 ?_
        rw [← h1h.1]
        exact List.mem_map_of_mem Prod.fst h2t
    · rcases List.mem_cons.mp h2 with h2h | h2t
      · exfalso
        rw [Prod.mk.injEq] at h2h
        refine h.1 ?_
        rw [← h2h.1]
        exact List.mem_map_of_mem Prod.fst h1t
      · exact ih h.2 h1t h2t

theorem filter_isError_forwarded (evs : List StreamEvent) :
    (evs.map emitOfStreamEvent).filter isErrorEmit = [] := by
  induction evs with
  | nil => rfl
  | cons e rest ih =>
    cases e <;> simp [emitOfStreamEvent, isErrorEmit, List.filter_cons, ih]

theorem filter_isSuggestions_forwarded (evs : List StreamEvent) :
    (evs.map emitOfStreamEvent).filter isSuggestionsEmit = [] := by
  induction evs with
  | nil => rfl
  | cons e rest ih =>
    cases e <;> simp [emitOfStreamEvent, isSuggestionsEmit, List.filter_cons, ih]

theorem filter_isComplete_forwarded (evs : List StreamEvent) :
    (evs.map emitOfStreamEvent).filter isCompleteEmit = [] := by
  induction evs with
  | nil => rfl
  | cons e rest ih =>
    cases e <;> simp [emitOfStreamEvent, isCompleteEmit, List.filter_cons, ih]

theorem expiredPred_iff (now : Nat) (sess : Session) :
    expiredPred now sess = true ↔
      (sess.status = Status.pending_deletion ∨
        (sess.status = Status.active ∧ now - sess.lastActive > SESSION_TIMEOUT)) := by
  simp [expiredPred, and_comm]

/-! ## Preservation of the registry invariant -/

theorem not_mem_live_of_none {s : SMState} (h : Inv s) {sid : Nat}
    (hg : getSession s sid = none) (tid : Nat) : (tid, sid) ∉ s.live := by
  intro hmem
  rcases (h.live_match tid sid).mp hmem with ⟨sess, hg', _⟩
  rw [hg] at hg'
  cases hg'

theorem not_mem_live_of_noTimeout {s : SMState} (h : Inv s) {sid : Nat}
    {sess : Session} (hg : getSession s sid = some sess)
    (ht : sess.timeoutId = none) (tid : Nat) : (tid, sid) ∉ s.live := by
  intro hmem
  rcases (h.live_match tid sid).mp hmem with ⟨sess', hg', ht'⟩
  rw [hg] at hg'
  cases hg'
  rw [ht] at ht'
  cases ht'

theorem not_mem_cleared {s : SMState} (h : Inv s) {sid t : Nat}
    {sess : Session} (hg : getSession s sid = some sess)
    (ht : sess.timeoutId = some t) (tid : Nat) :
    (tid, sid) ∉ clearTimer t s.live := by
  intro hmem
  rcases mem_clearTimer.mp hmem with ⟨hin, hne⟩
  rcases (h.live_match tid sid).mp hin with ⟨sess', hg', ht'⟩
  rw [hg] at hg'
  cases hg'
  rw [ht] at ht'
  exact hne (Option.some.inj ht').symm

theorem mem_cleared_iff {s : SMState} (h : Inv s) {sid t : Nat}
    {sess : Session} (hg : getSession s sid = some sess)
    (ht : sess.timeoutId = some t) (tid sid' : Nat) (hne : sid' ≠ sid) :
    ((tid, sid') ∈ clearTimer t s.live) ↔ (tid, sid') ∈ s.live := by
  constructor
  · exact fun hm => (mem_clearTimer.mp hm).1
  · intro hm
    refine mem_clearTimer.mpr ⟨hm, ?_⟩
    intro htid
    subst htid
    have hsid : (tid, sid) ∈ s.live :=
      (h.live_match tid sid).mpr ⟨sess, hg, ht⟩
    exact hne (mem_fst_inj h.live_nodup hm hsid)

theorem sess_fresh_update {sid : Nat} {f : Session → Session}
    {l : List (Nat × Session)} {n : Nat} (h : ∀ p ∈ l, p.1 < n) :
    ∀ p ∈ updateSess sid f l, p.1 < n := by
  intro p hp
  have h1 : p.1 ∈ (updateSess sid f l).map Prod.fst := List.mem_map_of_mem _ hp
  rw [updateSess_keys] at h1
  obtain ⟨q, hq, hq1⟩ := List.mem_map.mp h1
  exact hq1 ▸ h q hq

theorem clearTimer_sublist (t : Nat) (live : List (Nat × Nat)) :
    List.Sublist (clearTimer t live) live := List.filter_sublist live

theorem inv_init : Inv initState := by
  refine ⟨?_, ?_, ?_, ?_⟩
  · intro tid sid
    simp [initState, getSession, lookupSess]
  · simp [initState]
  · intro p hp
    simp [initState] at hp
  · intro p hp
    simp [initState] at hp

theorem inv_create (now : Nat) (s : SMState) (h : Inv s) :
    Inv (createSession now s).2 := by
  have hnone : lookupSess s.nextSession s.sessions = none :=
    lookupSess_fresh _ _ h.sess_fresh
  refine ⟨?_, h.live_nodup, h.timer_fresh, ?_⟩
  · intro tid sid
    by_cases hsid : sid = s.nextSession
    · subst hsid
      constructor
      · intro hmem
        have hmem' : (tid, s.nextSession) ∈ s.live := hmem
        exact absurd hmem' (not_mem_live_of_none h hnone tid)
      · rintro ⟨sess, hg, ht⟩
        simp [createSession, getSession, lookupSess] at hg
        rw [← hg] at ht
        simp at ht
    · have hlivec : (createSession now s).2.live = s.live := rfl
      have hgetc : getSession (createSession now s).2 sid = getSession s sid := by
        show lookupSess sid ((s.nextSession,
          { threadId := none, lastActive := now, timeoutId := none
            status := Status.active }) :: s.sessions) = getSession s sid
        simp [lookupSess, getSession, Ne.symm hsid]
      rw [hlivec, hgetc]
      exact h.live_match tid sid
  · intro p hp
    rcases List.mem_cons.mp hp with heq | hmem
    · rw [heq]
      exact Nat.lt_succ_self _
    · exact Nat.lt_succ_of_lt (h.sess_fresh p hmem)

theorem inv_update_keepTimeout (s : SMState) (h : Inv s) (sid : Nat)
    (f : Session → Session) (hf : ∀ ss, (f ss).timeoutId = ss.timeoutId) :
    Inv { s with sessions := updateSess sid f s.sessions } := by
  refine ⟨?_, h.live_nodup, h.timer_fresh, sess_fresh_update h.sess_fresh⟩
  intro tid sid'
  have hold := h.live_match tid sid'
  simp only [getSession] at hold ⊢
  rw [hold]
  by_cases hx : sid' = sid
  · subst hx
    rw [lookupSess_update_self]
    cases hg : lookupSess sid' s.sessions with
    | none => simp
    | some sess =>
      simp only [Option.map_some']
      constructor
      · rintro ⟨sess', hs', ht⟩
        cases Option.some.inj hs'
        refine ⟨f sess, rfl, ?_⟩
        rw [hf]
        exact ht
      · rintro ⟨sess', hs', ht⟩
        cases Option.some.inj hs'
        refine ⟨sess, rfl, ?_⟩
        rw [hf] at ht
        exact ht
  · rw [lookupSess_update_ne sid sid' hx]

theorem inv_mark (sid : Nat) (s : SMState) (h : Inv s) :
    Inv (markSessionForDeletion sid s).2 := by
  cases hg : lookupSess sid s.sessions with
  | none => simpa [markSessionForDeletion, getSession, hg] using h
  | some sess =>
    have hstate : (markSessionForDeletion sid s).2
        = { s with
              sessions := updateSess sid
                  (fun ss => { ss with status := Status.pending_deletion })
                  s.sessions } := by
      simp [markSessionForDeletion, getSession, hg]
    rw [hstate]
    exact inv_update_keepTimeout s h sid _ (fun ss => rfl)

theorem inv_remove (s : SMState) (h : Inv s) (sid : Nat)
    (live1 : List (Nat × Nat)) (hsub : List.Sublist live1 s.live)
    (hnot : ∀ tid, (tid, sid) ∉ live1)
    (hoth : ∀ tid sid', sid' ≠ sid →
      ((tid, sid') ∈ live1 ↔ (tid, sid') ∈ s.live)) :
    Inv { s with live := live1
                 sessions := s.sessions.filter (fun p => p.1 != sid) } := by
  refine ⟨?_, ((hsub.map Prod.fst).nodup h.live_nodup),
    fun p hp => h.timer_fresh p (hsub.mem hp), ?_⟩
  · intro tid sid'
    simp only [getSession]
    by_cases hx : sid' = sid
    · subst hx
      rw [lookupSess_filter_self]
      constructor
      · intro hm
        exact absurd hm (hnot tid)
      · rintro ⟨sess', hs', _⟩
        cases hs'
    · rw [lookupSess_filter_ne sid sid' hx]
      have hold := h.live_match tid sid'
      simp only [getSession] at hold
      rw [← hold]
      exact hoth tid sid' hx
  · intro p hp
    exact h.sess_fresh p (List.mem_of_mem_filter hp)

theorem inv_delete (sid : Nat) (s : SMState) (h : Inv s) :
    Inv (deleteSession sid s) := by
  cases hg : lookupSess sid s.sessions with
  | none =>
    have hstate : deleteSession sid s
        = { s with
              live := s.live
              sessions := s.sessions.filter (fun p => p.1 != sid) } := by
      simp [deleteSession, getSession, hg]
    rw [hstate]
    exact inv_remove s h sid s.live (List.Sublist.refl _)
      (not_mem_live_of_none h hg) (fun _ _ _ => Iff.rfl)
  | some sess =>
    have hgS : getSession s sid = some sess := hg
    rcases ht : sess.timeoutId with _ | t
    · have hstate : deleteSession sid s
          = { s with
                live := s.live
                sessions := s.sessions.filter (fun p => p.1 != sid) } := by
        simp [deleteSession, getSession, hg, ht]
      rw [hstate]
      exact inv_remove s h sid s.live (List.Sublist.refl _)
        (not_mem_live_of_noTimeout h hgS ht) (fun _ _ _ => Iff.rfl)
    · have hstate : deleteSession sid s
          = { s with
                live := clearTimer t s.live
                sessions := s.sessions.filter (fun p => p.1 != sid) } := by
        simp [deleteSession, getSession, hg, ht]
      rw [hstate]
      exact inv_remove s h sid (clearTimer t s.live)
        (clearTimer_sublist t s.live) (not_mem_cleared h hgS ht)
        (fun tid sid' hx => mem_cleared_iff h hgS ht tid sid' hx)

theorem inv_arm (s : SMState) (h : Inv s) (sid : Nat) (sess : Session)
    (hgS : getSession s sid = some sess) (live1 : List (Nat × Nat))
    (hsub : List.Sublist live1 s.live) (hnot : ∀ tid, (tid, sid) ∉ live1)
    (hoth : ∀ tid sid', sid' ≠ sid →
      ((tid, sid') ∈ live1 ↔ (tid, sid') ∈ s.live)) :
    Inv { s with
      sessions := updateSess sid
        (fun ss => { ss with timeoutId := some s.nextTimer }) s.sessions
      live := (s.nextTimer, sid) :: live1
      nextTimer := s.nextTimer + 1 } := by
  have hg' : lookupSess sid s.sessions = some sess := hgS
  refine ⟨?_, ?_, ?_, sess_fresh_update h.sess_fresh⟩
  · intro tid sid'
    simp only [getSession, List.mem_cons]
    by_cases hx : sid' = sid
    · subst hx
      rw [lookupSess_update_self, hg']
      simp only [Option.map_some']
      constructor
      · rintro (heq | hmem1)
        · rw [Prod.mk.injEq] at heq
          refine ⟨{ sess with timeoutId := some s.nextTimer }, rfl, ?_⟩
          rw [heq.1]
        · exact absurd hmem1 (hnot tid)
      · rintro ⟨sess', hs', ht'⟩
        have hse : { sess with timeoutId := some s.nextTimer } = sess' :=
          Option.some.inj hs'
        rw [← hse] at ht'
        left
        rw [Prod.mk.injEq]
        exact ⟨(Option.some.inj ht').symm, rfl⟩
    · rw [lookupSess_update_ne sid sid' hx]
      have hold := h.live_match tid sid'
      simp only [getSession] at hold
      rw [← hold]
      constructor
      · rintro (heq | hmem1)
        · rw [Prod.mk.injEq] at heq
          exact absurd heq.2 hx
        · exact (hoth tid sid' hx).mp hmem1
      · intro hm
        exact Or.inr ((hoth tid sid' hx).mpr hm)
  · show (((s.nextTimer, sid) :: live1).map Prod.fst).Nodup
    rw [List.map_cons]
    refine List.nodup_cons.mpr ⟨?_, (hsub.map Prod.fst).nodup h.live_nodup⟩
    intro hmem
    obtain ⟨q, hq, hq1⟩ := List.mem_map.mp hmem
    have hlt := h.timer_fresh q (hsub.mem hq)
    omega
  · intro p hp
    rcases List.mem_cons.mp hp with heq | hmem1
    · subst heq
      exact Nat.lt_succ_self _
    · exact Nat.lt_succ_of_lt (h.timer_fresh p (hsub.mem hmem1))

theorem inv_disarm (now : Nat) (s : SMState) (h : Inv s) (sid : Nat)
    (sess : Session) (hgS : getSession s sid = some sess)
    (live1 : List (Nat × Nat)) (hsub : List.Sublist live1 s.live)
    (hnot : ∀ tid, (tid, sid) ∉ live1)
    (hoth : ∀ tid sid', sid' ≠ sid →
      ((tid, sid') ∈ live1 ↔ (tid, sid') ∈ s.live)) :
    Inv { s with
      sessions := updateSess sid
        (fun ss => { ss with lastActive := now, timeoutId := none }) s.sessions
      live := live1 } := by
  have hg' : lookupSess sid s.sessions = some sess := hgS
  refine ⟨?_, (hsub.map Prod.fst).nodup h.live_nodup,
    fun p hp => h.timer_fresh p (hsub.mem hp),
    sess_fresh_update h.sess_fresh⟩
  intro tid sid'
  simp only [getSession]
  by_cases hx : sid' = sid
  · subst hx
    rw [lookupSess_update_self, hg']
    simp only [Option.map_some']
    constructor
    · intro hmem
      exact absurd hmem (hnot tid)
    · rintro ⟨sess', hs', ht'⟩
      have hse : { sess with lastActive := now, timeoutId := none } = sess' :=
        Option.some.inj hs'
      rw [← hse] at ht'
      simp at ht'
  · rw [lookupSess_update_ne sid sid' hx]
    have hold := h.live_match tid sid'
    simp only [getSession] at hold
    rw [← hold]
    exact hoth tid sid' hx

theorem inv_schedule (sid : Nat) (s : SMState) (h : Inv s) :
    Inv (scheduleCleanup sid s) := by
  cases hg : lookupSess sid s.sessions with
  | none => simpa [scheduleCleanup, getSession, hg] using h
  | some sess =>
    have hgS : getSession s sid = some sess := hg
    by_cases hact : sess.status = Status.active
    · rcases ht : sess.timeoutId with _ | t
      · have hstate : scheduleCleanup sid s = { s with
            sessions := updateSess sid
              (fun ss => { ss with timeoutId := some s.nextTimer }) s.sessions
            live := (s.nextTimer, sid) :: s.live
            nextTimer := s.nextTimer + 1 } := by
          simp [scheduleCleanup, getSession, hg, hact, ht]
        rw [hstate]
        exact inv_arm s h sid sess hgS s.live (List.Sublist.refl _)
          (not_mem_live_of_noTimeout h hgS ht) (fun _ _ _ => Iff.rfl)
      · have hstate : scheduleCleanup sid s = { s with
            sessions := updateSess sid
              (fun ss => { ss with timeoutId := some s.nextTimer }) s.sessions
            live := (s.nextTimer, sid) :: clearTimer t s.live
            nextTimer := s.nextTimer + 1 } := by
          simp [scheduleCleanup, getSession, hg, hact, ht]
        rw [hstate]
        exact inv_arm s h sid sess hgS (clearTimer t s.live)
          (clearTimer_sublist t s.live) (not_mem_cleared h hgS ht)
          (fun tid sid' hx => mem_cleared_iff h hgS ht tid sid' hx)
    · have hstate : scheduleCleanup sid s = s := by
        simp [scheduleCleanup, getSession, hg, hact]
      rw [hstate]
      exact h

theorem inv_refresh (now sid : Nat) (s : SMState) (h : Inv s) :
    Inv (refreshSession now sid s).2 := by
  cases hg : lookupSess sid s.sessions with
  | none => simpa [refreshSession, getSession, hg] using h
  | some sess =>
    have hgS : getSession s sid = some sess := hg
    by_cases hact : sess.status = Status.active
    · rcases ht : sess.timeoutId with _ | t
      · have hstate : (refreshSession now sid s).2 = scheduleCleanup sid
            { s with
              sessions := updateSess sid
                (fun ss => { ss with lastActive := now, timeoutId := none })
                s.sessions
              live := s.live } := by
          simp [refreshSession, getSession, hg, hact, ht]
        rw [hstate]
        exact inv_schedule sid _ (inv_disarm now s h sid sess hgS s.live
          (List.Sublist.refl _) (not_mem_live_of_noTimeout h hgS ht)
          (fun _ _ _ => Iff.rfl))
      · have hstate : (refreshSession now sid s).2 = scheduleCleanup sid
            { s with
              sessions := updateSess sid
                (fun ss => { ss with lastActive := now, timeoutId := none })
                s.sessions
              live := clearTimer t s.live } := by
          simp [refreshSession, getSession, hg, hact, ht]
        rw [hstate]
        exact inv_schedule sid _ (inv_disarm now s h sid sess hgS
          (clearTimer t s.live) (clearTimer_sublist t s.live)
          (not_mem_cleared h hgS ht)
          (fun tid sid' hx => mem_cleared_iff h hgS ht tid sid' hx))
    · have hstate : (refreshSession now sid s).2 = s := by
        simp [refreshSession, getSession, hg, hact]
      rw [hstate]
      exact h

theorem inv_applyOp (s : SMState) (h : Inv s) (op : Op) :
    Inv (applyOp s op) := by
  cases op with
  | create now => exact inv_create now s h
  | refresh now sid => exact inv_refresh now sid s h
  | mark sid => exact inv_mark sid s h
  | remove sid => exact inv_delete sid s h
  | schedule sid => exact inv_schedule sid s h

theorem inv_runOps (ops : List Op) : Inv (runOps ops) := by
  suffices hgen : ∀ s, Inv s → Inv (ops.foldl applyOp s) from
    hgen initState inv_init
  induction ops with
  | nil => exact fun s hs => hs
  | cons op rest ih => exact fun s hs => ih (applyOp s op) (inv_applyOp s hs op)

theorem length_liveTimersFor_le_one (s : SMState) (h : Inv s) (sid : Nat) :
    (liveTimersFor sid s).length ≤ 1 := by
  have hmem : ∀ q ∈ liveTimersFor sid s, ∃ sess,
      getSession s sid = some sess ∧ sess.timeoutId = some q.1 ∧ q.2 = sid := by
    intro q hq
    rcases List.mem_filter.mp hq with ⟨hin, hsid⟩
    obtain ⟨q1, q2⟩ := q
    have hq2 : q2 = sid := by simpa using hsid
    rw [hq2] at hin
    rcases (h.live_match q1 sid).mp hin with ⟨sess, hg, ht⟩
    exact ⟨sess, hg, ht, hq2⟩
  have hnodup : (liveTimersFor sid s).Nodup := by
    have hln : s.live.Nodup := h.live_nodup.of_map
    exact hln.filter _
  cases hl : liveTimersFor sid s with
  | nil => simp
  | cons a rest =>
    cases rest with
    | nil => simp
    | cons b rest2 =>
      exfalso
      have ha := hmem a (by rw [hl]; exact List.mem_cons_self _ _)
      have hb := hmem b
        (by rw [hl]; exact List.mem_cons_of_mem _ (List.mem_cons_self _ _))
      obtain ⟨sa, hga, hta, ha2⟩ := ha
      obtain ⟨sb, hgb, htb, hb2⟩ := hb
      rw [hga] at hgb
      have hsab : sa = sb := Option.some.inj hgb
      rw [← hsab] at htb
      rw [hta] at htb
      have h1 : a.1 = b.1 := Option.some.inj htb
      have hab : a = b := Prod.ext h1 (ha2.trans hb2.symm)
      rw [hl] at hnodup
      rcases List.nodup_cons.mp hnodup with ⟨hnotin, _⟩
      exact hnotin (hab ▸ List.mem_cons_self b rest2)

/-! ## Claim theorems -/

/-! ## Claim theorems -/

/-- Claim C1 (behavior at the failing input): `markSessionForDeletion`
returns `true` on the first call on an existing session, returns `true`
again — not `false` — on the immediately following second call, and returns
`false` on an id that is not in the registry. -/
theorem C1_mark_twice_returns_true :
    (markSessionForDeletion 0 (createSession 0 initState).2).1 = true ∧
    (markSessionForDeletion 0
      (markSessionForDeletion 0 (createSession 0 initState).2).2).1 = true ∧
    (markSessionForDeletion 99 (createSession 0 initState).2).1 = false := by
  decide

/-- Claim C2 (counterexample): after creating a session, running one
successful prompt turn (which binds a thread and arms the cleanup timer)
and then a cleanup whose remote delete fails, the session is in
`pending_deletion` while its timer `(0, 0)` is still live. -/
theorem C2_pending_session_holds_live_timer :
    (0, 0) ∈ (cleanupSession DelResult.otherError 0
      (handlePrompt ⟨true, some 7, true, true, [], StreamOutcome.endOk,
        SuggestApi.ok []⟩ 0 (createSession 0 initState).2).2).2.live ∧
    (getSession (cleanupSession DelResult.otherError 0
      (handlePrompt ⟨true, some 7, true, true, [], StreamOutcome.endOk,
        SuggestApi.ok []⟩ 0 (createSession 0 initState).2).2).2 0).map
        Session.status = some Status.pending_deletion := by
  decide

/-- Claim C2 (amended): transitioning a session into `pending_deletion`
via `markSessionForDeletion` does not cancel any timer: the armed-timer
list and every session's `timeoutId` are left unchanged, so a session in
`pending_deletion` may still hold a live timer. -/
theorem C2_mark_preserves_timers (sid : Nat) (s : SMState) :
    (markSessionForDeletion sid s).2.live = s.live ∧
    ∀ sid', (getSession (markSessionForDeletion sid s).2 sid').map
        Session.timeoutId = (getSession s sid').map Session.timeoutId := by
  cases hg : getSession s sid with
  | none => simp [markSessionForDeletion, hg]
  | some sess =>
    constructor
    · simp [markSessionForDeletion, hg]
    · intro sid'
      by_cases h' : sid' = sid
      · subst h'
        have hg' : lookupSess sid' s.sessions = some sess := hg
        simp only [markSessionForDeletion, getSession, hg']
        rw [lookupSess_update_self, hg']
        rfl
      · have hg' : lookupSess sid s.sessions = some sess := hg
        simp [markSessionForDeletion, hg', getSession,
          lookupSess_update_ne sid sid' h']

/-- Claim C3 (counterexample): resuming with an id unknown to the registry
emits a `session_created` event without the informational `info` field. -/
theorem C3_unknown_resume_lacks_flag :
    (resumeSession 5 (some 99) initState).1
      = [Emit.session_created 0 false] := by
  rfl

/-- Claim C3 (amended): on a resume whose id is unknown or whose session is
not active, the server never emits `session_resumed`; it creates a fresh
active session and emits `session_created` for it, but without the
informational flag (the flag is only attached in the branch where
`hasSession` accepted the id and the refresh still failed). -/
theorem C3_invalid_resume_creates_fresh (now id : Nat) (s : SMState)
    (h : hasSession s id = false) :
    (resumeSession now (some id) s).1
      = [Emit.session_created s.nextSession false] ∧
    getSession (resumeSession now (some id) s).2 s.nextSession =
      some { threadId := none, lastActive := now, timeoutId := none
             status := Status.active } := by
  simp [resumeSession, h, createSession, getSession, lookupSess]

/-- Witness for C3: in a registry whose only session (id 0) is pending
deletion, resuming with the stale id 0 yields a fresh session with id 1
and a `session_created` event without the flag. -/
theorem C3_invalid_resume_witness :
    (resumeSession 7 (some 0) (runOps [Op.create 0, Op.mark 0])).1
      = [Emit.session_created 1 false] ∧
    getSession (resumeSession 7 (some 0) (runOps [Op.create 0, Op.mark 0])).2 1 =
      some { threadId := none, lastActive := 7, timeoutId := none
             status := Status.active } :=
  C3_invalid_resume_creates_fresh 7 0 (runOps [Op.create 0, Op.mark 0]) (by decide)

/-- Claim C4: when the reply stream of a prompt turn ends with a mid-stream
error event, the emitted events contain exactly one error signal, no
suggestions event and no completion signal, the registry state is
untouched, and the session is still active afterwards. -/
theorem C4_stream_error_single_error (sid : Nat) (evs : List StreamEvent)
    (api : SuggestApi) (s : SMState) (sess : Session)
    (hg : getSession s sid = some sess) (hact : sess.status = Status.active) :
    (runStream sid evs StreamOutcome.errorEvt api s).1.filter isErrorEmit
      = [Emit.errorMsg "Error during response streaming"] ∧
    (runStream sid evs StreamOutcome.errorEvt api s).1.filter
      isSuggestionsEmit = [] ∧
    (runStream sid evs StreamOutcome.errorEvt api s).1.filter
      isCompleteEmit = [] ∧
    (runStream sid evs StreamOutcome.errorEvt api s).2 = s ∧
    (getSession (runStream sid evs StreamOutcome.errorEvt api s).2 sid).map
      Session.status = some Status.active := by
  refine ⟨?_, ?_, ?_, rfl, ?_⟩
  · simp [runStream, List.filter_append, filter_isError_forwarded,
      List.filter_cons, isErrorEmit]
  · simp [runStream, List.filter_append, filter_isSuggestions_forwarded,
      List.filter_cons, isSuggestionsEmit]
  · simp [runStream, List.filter_append, filter_isComplete_forwarded,
      List.filter_cons, isCompleteEmit]
  · simp [runStream, hg, hact]

/-- Witness for C4 at a concrete input: one freshly created session, a
stream with one delta that then errors. -/
theorem C4_stream_error_witness :
    (runStream 0 [StreamEvent.textDelta "x"] StreamOutcome.errorEvt
      SuggestApi.fail (createSession 0 initState).2).1.filter isErrorEmit
      = [Emit.errorMsg "Error during response streaming"] ∧
    (runStream 0 [StreamEvent.textDelta "x"] StreamOutcome.errorEvt
      SuggestApi.fail (createSession 0 initState).2).1.filter
      isSuggestionsEmit = [] ∧
    (runStream 0 [StreamEvent.textDelta "x"] StreamOutcome.errorEvt
      SuggestApi.fail (createSession 0 initState).2).1.filter
      isCompleteEmit = [] ∧
    (runStream 0 [StreamEvent.textDelta "x"] StreamOutcome.errorEvt
      SuggestApi.fail (createSession 0 initState).2).2
      = (createSession 0 initState).2 ∧
    (getSession (runStream 0 [StreamEvent.textDelta "x"]
      StreamOutcome.errorEvt SuggestApi.fail
      (createSession 0 initState).2).2 0).map Session.status
      = some Status.active :=
  C4_stream_error_single_error 0 [StreamEvent.textDelta "x"] SuggestApi.fail
    (createSession 0 initState).2
    { threadId := none, lastActive := 0, timeoutId := none
      status := Status.active } rfl rfl

/-- Claim C5 (counterexample): when the suggestion generator fails on a
normally completed turn, the suggestions event is not omitted — it is
emitted carrying the empty list (zero entries, not three). -/
theorem C5_failed_generator_still_emits :
    (runStream 0 [] StreamOutcome.endOk SuggestApi.fail
      (createSession 0 initState).2).1
      = [Emit.responseComplete, Emit.suggestions []] := by
  rfl

/-- Claim C5 (amended): on a normally completed turn the suggestions event
is always emitted directly after the completion signal and carries exactly
the generator's result: the parsed `quick_replies` on success (three
entries only if the model returned three; the code does not enforce the
count) and the empty list on generator failure; no error event is ever
emitted for the suggestion phase, so a generation failure never fails the
turn. -/
theorem C5_suggestions_best_effort (sid : Nat) (evs : List StreamEvent)
    (api : SuggestApi) (s : SMState) :
    (runStream sid evs StreamOutcome.endOk api s).1
      = evs.map emitOfStreamEvent ++
        [Emit.responseComplete, Emit.suggestions (generate api)] ∧
    (runStream sid evs StreamOutcome.endOk api s).1.filter isErrorEmit = [] ∧
    generate SuggestApi.fail = [] ∧
    (∀ l, generate (SuggestApi.ok l) = l) := by
  refine ⟨rfl, ?_, rfl, fun l => rfl⟩
  simp [runStream, List.filter_append, filter_isError_forwarded,
    List.filter_cons, isErrorEmit]

/-- Claim C6: `refreshSession` on an id that is absent or whose session is
not active returns `null` and leaves the entire state unchanged. -/
theorem C6_refresh_rejects (now sid : Nat) (s : SMState)
    (h : (getSession s sid).map Session.status ≠ some Status.active) :
    refreshSession now sid s = (none, s) := by
  cases hg : getSession s sid with
  | none => simp [refreshSession, hg]
  | some sess =>
    rw [hg] at h
    have hstat : sess.status ≠ Status.active := by
      intro he
      exact h (by simp [he])
    simp [refreshSession, hg, hstat]

/-- Witness for C6: refreshing the pending-deletion session 0 fails and
changes nothing. -/
theorem C6_refresh_rejects_witness :
    refreshSession 5 0 (runOps [Op.create 0, Op.mark 0])
      = (none, runOps [Op.create 0, Op.mark 0]) :=
  C6_refresh_rejects 5 0 (runOps [Op.create 0, Op.mark 0]) (by decide)

/-- Claim C7: `getExpiredSessions now` returns exactly the ids of the
entries whose status is `pending_deletion`, together with those whose
status is `active` and whose idle time `now - lastActive` strictly exceeds
`SESSION_TIMEOUT`. -/
theorem C7_getExpired_characterization (now sid : Nat) (s : SMState) :
    sid ∈ getExpiredSessions now s ↔
      ∃ sess, (sid, sess) ∈ s.sessions ∧
        (sess.status = Status.pending_deletion ∨
          (sess.status = Status.active ∧
            now - sess.lastActive > SESSION_TIMEOUT)) := by
  simp only [getExpiredSessions, List.mem_map, List.mem_filter, Prod.exists]
  constructor
  · rintro ⟨a, b, ⟨hmem, hpred⟩, rfl⟩
    exact ⟨b, hmem, (expiredPred_iff now b).mp hpred⟩
  · rintro ⟨sess, hmem, hcond⟩
    exact ⟨sid, sess, ⟨hmem, (expiredPred_iff now sess).mpr hcond⟩, rfl⟩

/-- Claim C8: cleaning up a session with a bound thread: a 404 from the
remote delete still removes the record and emits nothing; any other remote
failure leaves the record in the registry in `pending_deletion` (so the
next sweep retries it) and emits nothing — in particular no error event
reaches any client in either case. -/
theorem C8_cleanup_failure_handling (sid t : Nat) (s : SMState)
    (sess : Session) (hg : getSession s sid = some sess)
    (ht : sess.threadId = some t) :
    (cleanupSession DelResult.notFound sid s).1 = [] ∧
    getSession (cleanupSession DelResult.notFound sid s).2 sid = none ∧
    (cleanupSession DelResult.otherError sid s).1 = [] ∧
    getSession (cleanupSession DelResult.otherError sid s).2 sid
      = some { sess with status := Status.pending_deletion } := by
  have hg' : lookupSess sid s.sessions = some sess := hg
  refine ⟨?_, ?_, ?_, ?_⟩
  · simp [cleanupSession, markSessionForDeletion, hg', ht, getSession]
  · simp [cleanupSession, markSessionForDeletion, hg', ht, deleteSession,
      getSession, lookupSess_filter_self]
  · simp [cleanupSession, markSessionForDeletion, hg', ht, getSession]
  · simp only [cleanupSession, markSessionForDeletion, getSession, hg', ht]
    rw [lookupSess_update_self, hg']
    simp [ht]

/-- Witness for C8: a registry holding one active session with thread 7. -/
theorem C8_cleanup_failure_witness :
    (cleanupSession DelResult.notFound 0
      ⟨[(0, ⟨some 7, 0, none, Status.active⟩)], [], 0, 1⟩).1 = [] ∧
    getSession (cleanupSession DelResult.notFound 0
      ⟨[(0, ⟨some 7, 0, none, Status.active⟩)], [], 0, 1⟩).2 0 = none ∧
    (cleanupSession DelResult.otherError 0
      ⟨[(0, ⟨some 7, 0, none, Status.active⟩)], [], 0, 1⟩).1 = [] ∧
    getSession (cleanupSession DelResult.otherError 0
      ⟨[(0, ⟨some 7, 0, none, Status.active⟩)], [], 0, 1⟩).2 0
      = some { threadId := some 7, lastActive := 0, timeoutId := none
               status := Status.pending_deletion } :=
  C8_cleanup_failure_handling 0 7
    ⟨[(0, ⟨some 7, 0, none, Status.active⟩)], [], 0, 1⟩
    ⟨some 7, 0, none, Status.active⟩ rfl rfl

/-- Claim C10: the `clear_chat` broadcast is emitted by a cleanup exactly
when the remote delete was attempted on a bound thread and succeeded; a
cleanup of a session without a bound thread removes the record and emits
nothing. -/
theorem C10_clear_chat_only_on_success (del : DelResult) (sid : Nat)
    (s : SMState) (sess : Session) (hg : getSession s sid = some sess) :
    ((cleanupSession del sid s).1.filter isClearChatEmit
      = if del = DelResult.success ∧ sess.threadId.isSome
        then [Emit.clear_chat sid] else []) ∧
    (sess.threadId = none →
      (cleanupSession del sid s).1 = [] ∧
      getSession (cleanupSession del sid s).2 sid = none) := by
  have hg' : lookupSess sid s.sessions = some sess := hg
  cases del <;> cases hth : sess.threadId <;>
    simp [cleanupSession, markSessionForDeletion, hg', hth, isClearChatEmit,
      List.filter_cons, deleteSession, getSession, lookupSess_filter_self]

/-- Claim C9: after any sequence of `createSession` / `refreshSession` /
`markSessionForDeletion` / `deleteSession` / `scheduleCleanup` calls, no
session ever holds two simultaneously armed timers: every arming first
cancels the session's previous timer (replace semantics). -/
theorem C9_at_most_one_live_timer (ops : List Op) (sid : Nat) :
    (liveTimersFor sid (runOps ops)).length ≤ 1 :=
  length_liveTimersFor_le_one (runOps ops) (inv_runOps ops) sid

/-- Witness for C10: successful remote deletion of thread 7 broadcasts
`clear_chat`; the no-thread implication is vacuous there. -/
theorem C10_clear_chat_witness :
    ((cleanupSession DelResult.success 0
      ⟨[(0, ⟨some 7, 0, none, Status.active⟩)], [], 0, 1⟩).1.filter
        isClearChatEmit
      = if DelResult.success = DelResult.success ∧ (some 7 : Option Nat).isSome
        then [Emit.clear_chat 0] else []) ∧
    ((some 7 : Option Nat) = none →
      (cleanupSession DelResult.success 0
        ⟨[(0, ⟨some 7, 0, none, Status.active⟩)], [], 0, 1⟩).1 = [] ∧
      getSession (cleanupSession DelResult.success 0
        ⟨[(0, ⟨some 7, 0, none, Status.active⟩)], [], 0, 1⟩).2 0 = none) :=
  C10_clear_chat_only_on_success DelResult.success 0
    ⟨[(0, ⟨some 7, 0, none, Status.active⟩)], [], 0, 1⟩
    ⟨some 7, 0, none, Status.active⟩ rfl

end PhilMoore
